import Mathlib

/-
Shallow embedding of src/hardware-integration-example.cpp, the single source
file of the bustrackingsystem repository (an ESP32/Arduino telemetry sketch).

Modelling conventions:
  * C++ float globals (latitude, fuelLevel, ...) become rational fields of
    SystemState; the static int counter of loop() becomes an integer field
    of LoopState.
  * Every external nondeterministic input consumed during one loop() tick
    (the random(a, b) draws, WiFi.status(), WiFi.RSSI(), the timestamp and
    the HTTP responses the server would give) is gathered in a TickInput
    record, so each tick is the pure function loopStep.
  * HTTPClient.POST returns an int: an HTTP status when a response arrived,
    a negative library error code (for example -11, read timeout) when the
    transport never produced a response.  HttpResponse models that pair of
    result code and body.
  * ArduinoJson documents become the Json tree; serialization order follows
    the order of the assignments in the source.
  * Spy-style observability: the send functions also return the list of
    Event values (sensor queries, network posts) they perform, so claims
    about zero calls are statements about that list.
-/

namespace BusTracking

mutual
/-- JSON value tree, the shape an ArduinoJson document takes after the
assignments in the source. -/
inductive Json where
  | jnum (q : ℚ)
  | jint (n : ℤ)
  | jbool (b : Bool)
  | jstr (s : String)
  | jobj (fields : JsonObj)
deriving DecidableEq, Repr

/-- Field list of a JSON object, in assignment order. -/
inductive JsonObj where
  | nil
  | cons (key : String) (value : Json) (rest : JsonObj)
deriving DecidableEq, Repr
end

/-- First value bound to a key in a JSON object field list. -/
def lookupField : JsonObj → String → Option Json
  | .nil, _ => none
  | .cons k v rest, key => if k = key then some v else lookupField rest key

/-- Result of one HTTPClient exchange: the int returned by POST or GET
(HTTP status if positive, library error code if negative) and the body
that getString would return. -/
structure HttpResponse where
  code : ℤ
  body : Json
deriving DecidableEq, Repr

/-- Outcome taxonomy of one send attempt (data model of the spec); the
embedding classifies each code path of the source into one variant. -/
inductive TransmissionOutcome where
  | Accepted (serverMessage : Option String)
  | RejectedByServer (statusCode : ℤ) (body : Json)
  | LinkUnavailable
  | TransportError (code : ℤ)
deriving DecidableEq, Repr

/-- True exactly on the Accepted variant. -/
def TransmissionOutcome.isAccepted : TransmissionOutcome → Bool
  | .Accepted _ => true
  | _ => false

/-- True exactly on the TransportError variant. -/
def TransmissionOutcome.isTransportError : TransmissionOutcome → Bool
  | .TransportError _ => true
  | _ => false

/-- The mutable globals of the sketch: latitude, longitude, speed, heading,
passengerCount, fuelLevel, engineTemp. -/
structure SystemState where
  latitude : ℚ
  longitude : ℚ
  speed : ℚ
  heading : ℚ
  passengerCount : ℤ
  fuelLevel : ℚ
  engineTemp : ℚ
deriving DecidableEq, Repr

/-- Initial values of the globals as declared at the top of the source:
fuelLevel starts at 100.0, engineTemp at 75.0, the rest at 0. -/
def initSystemState : SystemState :=
  { latitude := 0, longitude := 0, speed := 0, heading := 0,
    passengerCount := 0, fuelLevel := 100, engineTemp := 75 }

/-- All nondeterministic inputs one loop() iteration consumes. -/
structure TickInput where
  gpsLatOff : ℤ
  gpsLngOff : ℤ
  gpsSpeed : ℤ
  gpsHeading : ℤ
  sensorPassengers : ℤ
  sensorTempOff : ℤ
  timestamp : String
  wifiConnected : Bool
  rssi : ℤ
  cpuUsage : ℤ
  memoryUsage : ℤ
  storageUsage : ℤ
  batteryLevel : ℤ
  telemetryResponse : HttpResponse
  heartbeatResponse : HttpResponse
deriving DecidableEq, Repr

/-- Observable calls a tick makes to external collaborators. -/
inductive Event where
  | sensorQuery
  | networkPost (endpoint : String) (payload : Json)
deriving DecidableEq, Repr

/-- readGPSData: latitude and longitude move around the fixed base point
(11.3410, 77.7172) by random(-50, 50) / 100000.0; speed and heading are
fresh random draws. -/
def readGPSData (st : SystemState) (inp : TickInput) : SystemState :=
  { st with
    latitude := 11341 / 1000 + (inp.gpsLatOff : ℚ) / 100000,
    longitude := 777172 / 10000 + (inp.gpsLngOff : ℚ) / 100000,
    speed := (inp.gpsSpeed : ℚ),
    heading := (inp.gpsHeading : ℚ) }

/-- readSensorData: fresh passenger count, fuelLevel := max(0.0,
fuelLevel - 0.01), engineTemp := 75 + random(-5, 15). -/
def readSensorData (st : SystemState) (inp : TickInput) : SystemState :=
  { st with
    passengerCount := inp.sensorPassengers,
    fuelLevel := max 0 (st.fuelLevel - 1 / 100),
    engineTemp := 75 + (inp.sensorTempOff : ℚ) }

/-- The JSON document sendTelemetryData builds, field by field in source
order; door_status is assigned the literal booleans false and false. -/
def telemetryPayload (st : SystemState) (ts : String) : Json :=
  .jobj
    (.cons "latitude" (.jnum st.latitude)
    (.cons "longitude" (.jnum st.longitude)
    (.cons "speed" (.jnum st.speed)
    (.cons "heading" (.jnum st.heading)
    (.cons "fuel_level" (.jnum st.fuelLevel)
    (.cons "engine_temperature" (.jnum st.engineTemp)
    (.cons "passenger_count" (.jint st.passengerCount)
    (.cons "door_status"
      (.jobj (.cons "front" (.jbool false) (.cons "rear" (.jbool false) .nil)))
    (.cons "timestamp" (.jstr ts) .nil)))))))))

/-- Confirmation extraction of the 201 branch of sendTelemetryData: the
response is deserialized, and when its success field is the boolean true
the message field is read as a String (ArduinoJson renders an absent or
non-string value as the string null). -/
def confirmationMessage (body : Json) : Option String :=
  match body with
  | .jobj fields =>
      match lookupField fields "success" with
      | some (.jbool true) =>
          match lookupField fields "message" with
          | some (.jstr s) => some s
          | _ => some "null"
      | _ => none
  | _ => none

/-- Response classification of sendTelemetryData: the branch taken on the
int returned by POST.  httpResponseCode == 201 is the only success branch;
every other value, negative transport error codes included, falls into the
single else branch that logs the code and the raw error body. -/
def classifyTelemetry (resp : HttpResponse) : TransmissionOutcome :=
  if resp.code = 201 then .Accepted (confirmationMessage resp.body)
  else .RejectedByServer resp.code resp.body

/-- sendTelemetryData: returns early (no JSON built, no POST) when
WiFi.status() != WL_CONNECTED, otherwise builds the payload, POSTs it to
/api/hardware/gps and classifies the response.  The Event list records the
external calls the function performs. -/
def sendTelemetryData (wifi : Bool) (st : SystemState) (ts : String)
    (resp : HttpResponse) : TransmissionOutcome × List Event :=
  if !wifi then
    (.LinkUnavailable, [])
  else
    (classifyTelemetry resp,
     [.networkPost "/api/hardware/gps" (telemetryPayload st ts)])

/-- The JSON document sendHeartbeat builds: device_info with the literal
firmware version and hardware model plus WiFi.RSSI(), and system_status
with four random draws. -/
def heartbeatPayload (inp : TickInput) : Json :=
  .jobj
    (.cons "device_info"
      (.jobj (.cons "firmware_version" (.jstr "1.0.0")
             (.cons "hardware_model" (.jstr "ESP32-GPS-TRACKER")
             (.cons "signal_strength" (.jint inp.rssi) .nil))))
    (.cons "system_status"
      (.jobj (.cons "cpu_usage" (.jint inp.cpuUsage)
             (.cons "memory_usage" (.jint inp.memoryUsage)
             (.cons "storage_usage" (.jint inp.storageUsage)
             (.cons "battery_level" (.jint inp.batteryLevel) .nil)))))
    .nil))

/-- Response classification of sendHeartbeat: httpResponseCode == 200 is
the only success branch (no message is parsed there); every other value
falls into the failure branch that logs the code. -/
def classifyHeartbeat (resp : HttpResponse) : TransmissionOutcome :=
  if resp.code = 200 then .Accepted none
  else .RejectedByServer resp.code resp.body

/-- sendHeartbeat: builds the device-health payload and POSTs it to
/api/hardware/heartbeat unconditionally; the source performs no WiFi
status check in this function. -/
def sendHeartbeat (inp : TickInput) (resp : HttpResponse) :
    TransmissionOutcome × List Event :=
  (classifyHeartbeat resp,
   [.networkPost "/api/hardware/heartbeat" (heartbeatPayload inp)])

/-- Loop state: the sensor globals plus the static int updateCount of
loop(). -/
structure LoopState where
  sys : SystemState
  updateCount : ℤ
deriving DecidableEq, Repr

/-- State at the first entry of loop(): fresh globals, updateCount = 0. -/
def initLoopState : LoopState :=
  { sys := initSystemState, updateCount := 0 }

/-- What one tick produced: the telemetry outcome, the heartbeat outcome
when one was attempted, and the external calls in order. -/
structure TickResult where
  telemetry : TransmissionOutcome
  heartbeat : Option TransmissionOutcome
  events : List Event
deriving DecidableEq, Repr

/-- One iteration of loop(): readGPSData, readSensorData, sendTelemetryData,
then the counter block that increments updateCount, fires sendHeartbeat
when the incremented value reaches 10 and resets the counter to 0.
The two read functions each query the (simulated) sensor source. -/
def loopStep (st : LoopState) (inp : TickInput) : LoopState × TickResult :=
  let sys2 := readSensorData (readGPSData st.sys inp) inp
  let tel := sendTelemetryData inp.wifiConnected sys2 inp.timestamp
    inp.telemetryResponse
  let count1 := st.updateCount + 1
  if count1 ≥ 10 then
    let hb := sendHeartbeat inp inp.heartbeatResponse
    (⟨sys2, 0⟩,
     ⟨tel.1, some hb.1, [.sensorQuery, .sensorQuery] ++ tel.2 ++ hb.2⟩)
  else
    (⟨sys2, count1⟩,
     ⟨tel.1, none, [.sensorQuery, .sensorQuery] ++ tel.2⟩)

/-- Iterated loop: the state after consuming a list of tick inputs. -/
def runLoop (st : LoopState) : List TickInput → LoopState
  | [] => st
  | inp :: rest => runLoop (loopStep st inp).1 rest

/-- A tick input with the given responses substituted at both endpoints. -/
def setResponses (inp : TickInput) (rt rh : HttpResponse) : TickInput :=
  { inp with telemetryResponse := rt, heartbeatResponse := rh }

/-- The immutable snapshot the canonical telemetry payload carries, one
field per JSON field of the document built in sendTelemetryData. -/
structure TelemetrySample where
  latitude : ℚ
  longitude : ℚ
  speed : ℚ
  heading : ℚ
  fuelLevel : ℚ
  engineTemp : ℚ
  passengerCount : ℤ
  doorFront : Bool
  doorRear : Bool
  timestamp : String
deriving DecidableEq, Repr

/-- The sample a given global state and timestamp give rise to; the source
hard-codes both door booleans to false. -/
def sampleOf (st : SystemState) (ts : String) : TelemetrySample :=
  { latitude := st.latitude, longitude := st.longitude, speed := st.speed,
    heading := st.heading, fuelLevel := st.fuelLevel,
    engineTemp := st.engineTemp, passengerCount := st.passengerCount,
    doorFront := false, doorRear := false, timestamp := ts }

/-- Canonical serialization of a TelemetrySample, with the exact field
names and order of the document built in sendTelemetryData. -/
def serializeSample (s : TelemetrySample) : Json :=
  .jobj
    (.cons "latitude" (.jnum s.latitude)
    (.cons "longitude" (.jnum s.longitude)
    (.cons "speed" (.jnum s.speed)
    (.cons "heading" (.jnum s.heading)
    (.cons "fuel_level" (.jnum s.fuelLevel)
    (.cons "engine_temperature" (.jnum s.engineTemp)
    (.cons "passenger_count" (.jint s.passengerCount)
    (.cons "door_status"
      (.jobj (.cons "front" (.jbool s.doorFront)
             (.cons "rear" (.jbool s.doorRear) .nil)))
    (.cons "timestamp" (.jstr s.timestamp) .nil)))))))))

/-- Numeric leaf of a JSON value. -/
def Json.asNum : Json → Option ℚ
  | .jnum q => some q
  | _ => none

/-- Integer leaf of a JSON value. -/
def Json.asInt : Json → Option ℤ
  | .jint n => some n
  | _ => none

/-- Boolean leaf of a JSON value. -/
def Json.asBool : Json → Option Bool
  | .jbool b => some b
  | _ => none

/-- String leaf of a JSON value. -/
def Json.asStr : Json → Option String
  | .jstr s => some s
  | _ => none

/-- Field list of a JSON object value. -/
def Json.asObj : Json → Option JsonObj
  | .jobj fields => some fields
  | _ => none

/-- Modelled from the spec: the repository ships only the device-side
serializer; the server-side parser of the canonical payload is not under
src/, so it is modelled from the field list of section 6 of the spec:
each field of the JSON object, the nested door_status object included, is
read back into a TelemetrySample, and a missing or ill-typed field makes
the parse fail. -/
def parseTelemetrySample (j : Json) : Option TelemetrySample := do
  let fields ← j.asObj
  let lat ← (lookupField fields "latitude").bind Json.asNum
  let lng ← (lookupField fields "longitude").bind Json.asNum
  let sp ← (lookupField fields "speed").bind Json.asNum
  let hd ← (lookupField fields "heading").bind Json.asNum
  let fuel ← (lookupField fields "fuel_level").bind Json.asNum
  let temp ← (lookupField fields "engine_temperature").bind Json.asNum
  let pc ← (lookupField fields "passenger_count").bind Json.asInt
  let doors ← (lookupField fields "door_status").bind Json.asObj
  let front ← (lookupField doors "front").bind Json.asBool
  let rear ← (lookupField doors "rear").bind Json.asBool
  let ts ← (lookupField fields "timestamp").bind Json.asStr
  pure
    { latitude := lat, longitude := lng, speed := sp, heading := hd,
      fuelLevel := fuel, engineTemp := temp, passengerCount := pc,
      doorFront := front, doorRear := rear, timestamp := ts }

/-- door_status member of a JSON object payload. -/
def doorStatusOf (j : Json) : Option Json :=
  match j with
  | .jobj fields => lookupField fields "door_status"
  | _ => none

/-- A concrete tick input whose link is down. -/
def downInput : TickInput :=
  { gpsLatOff := 0, gpsLngOff := 0, gpsSpeed := 30, gpsHeading := 90,
    sensorPassengers := 5, sensorTempOff := 0,
    timestamp := "2024-01-15T10:10:10Z", wifiConnected := false,
    rssi := -60, cpuUsage := 50, memoryUsage := 50, storageUsage := 30,
    batteryLevel := 90, telemetryResponse := ⟨200, .jobj .nil⟩,
    heartbeatResponse := ⟨200, .jobj .nil⟩ }

/-- The same tick input with the link up. -/
def upInput : TickInput :=
  { downInput with wifiConnected := true }

end BusTracking

namespace BusTracking

/-- Projection of loopStep: the counter after one tick follows the source
increment-test-reset block. -/
lemma loopStep_updateCount (st : LoopState) (inp : TickInput) :
    (loopStep st inp).1.updateCount =
      if st.updateCount + 1 ≥ 10 then 0 else st.updateCount + 1 := by
  simp only [loopStep]
  split <;> rfl

/-- Projection of loopStep: a heartbeat is attempted in a tick exactly when
the incremented counter reaches 10. -/
lemma loopStep_heartbeat_isSome (st : LoopState) (inp : TickInput) :
    (loopStep st inp).2.heartbeat.isSome = decide (st.updateCount + 1 ≥ 10) := by
  simp only [loopStep]
  split <;> rename_i h <;> simp [h]

/-- Projection of loopStep: the sensor globals after one tick are the two
read functions applied in order. -/
lemma loopStep_sys (st : LoopState) (inp : TickInput) :
    (loopStep st inp).1.sys = readSensorData (readGPSData st.sys inp) inp := by
  simp only [loopStep]
  split <;> rfl

/-- Projection of loopStep: the telemetry outcome of a tick is the outcome
of sendTelemetryData on the freshly read globals. -/
lemma loopStep_telemetry (st : LoopState) (inp : TickInput) :
    (loopStep st inp).2.telemetry =
      (sendTelemetryData inp.wifiConnected
        (readSensorData (readGPSData st.sys inp) inp) inp.timestamp
        inp.telemetryResponse).1 := by
  simp only [loopStep]
  split <;> rfl

/-- Characterization of the external calls one tick performs: two sensor
queries, a telemetry POST exactly when the link is up, and a heartbeat POST
exactly when the incremented counter reaches 10. -/
lemma loopStep_events (st : LoopState) (inp : TickInput) :
    (loopStep st inp).2.events =
      [.sensorQuery, .sensorQuery]
      ++ (if inp.wifiConnected then
            [Event.networkPost "/api/hardware/gps"
              (telemetryPayload (readSensorData (readGPSData st.sys inp) inp)
                inp.timestamp)]
          else [])
      ++ (if st.updateCount + 1 ≥ 10 then
            [Event.networkPost "/api/hardware/heartbeat" (heartbeatPayload inp)]
          else []) := by
  simp only [loopStep, sendTelemetryData, sendHeartbeat]
  by_cases hw : inp.wifiConnected <;> by_cases hc : st.updateCount + 1 ≥ 10 <;>
    simp [hw, hc]

/-- The counter after a run is the initial counter plus the number of ticks,
modulo 10, whenever the initial counter is in range. -/
lemma runLoop_updateCount : ∀ (inps : List TickInput) (st : LoopState),
    0 ≤ st.updateCount → st.updateCount < 10 →
    (runLoop st inps).updateCount = (st.updateCount + inps.length) % 10 := by
  intro inps
  induction inps with
  | nil =>
      intro st h0 h10
      simp only [runLoop, List.length_nil]
      omega
  | cons i rest ih =>
      intro st h0 h10
      have hc := loopStep_updateCount st i
      have h1 : 0 ≤ (loopStep st i).1.updateCount := by rw [hc]; split <;> omega
      have h2 : (loopStep st i).1.updateCount < 10 := by rw [hc]; split <;> omega
      simp only [runLoop, List.length_cons]
      rw [ih _ h1 h2, hc]
      split <;> omega

/-- Fuel stays within its bounds along any run that starts within them. -/
lemma runLoop_fuel_bounds : ∀ (inps : List TickInput) (st : LoopState),
    0 ≤ st.sys.fuelLevel → st.sys.fuelLevel ≤ 100 →
    0 ≤ (runLoop st inps).sys.fuelLevel ∧ (runLoop st inps).sys.fuelLevel ≤ 100 := by
  intro inps
  induction inps with
  | nil => intro st h0 h1; exact ⟨h0, h1⟩
  | cons i rest ih =>
      intro st h0 h1
      simp only [runLoop]
      apply ih
      · rw [loopStep_sys]; exact le_max_left 0 _
      · rw [loopStep_sys]
        show max 0 (st.sys.fuelLevel - 1 / 100) ≤ 100
        apply max_le <;> linarith

/-- Claim C1: when the connectivity provider reports link-down, the
telemetry attempt returns LinkUnavailable and performs zero external calls
in that attempt, querying neither the sensor source nor the network; at
loop level, every tick whose link is down has telemetry outcome
LinkUnavailable. -/
theorem linkDown_telemetry :
    (∀ (st : SystemState) (ts : String) (resp : HttpResponse),
        sendTelemetryData false st ts resp = (.LinkUnavailable, []))
  ∧ (∀ (ls : LoopState) (inp : TickInput), inp.wifiConnected = false →
        (loopStep ls inp).2.telemetry = .LinkUnavailable) := by
  constructor
  · intro st ts resp; rfl
  · intro ls inp h
    rw [loopStep_telemetry, h]
    rfl

/-- Witness for linkDown_telemetry at the concrete link-down tick input. -/
theorem linkDown_telemetry_witness :
    (loopStep initLoopState downInput).2.telemetry = .LinkUnavailable :=
  linkDown_telemetry.2 initLoopState downInput rfl

/-- Counterexample to claim C2: on the tenth tick of a run whose link is
down throughout, the code still performs the heartbeat network POST (the
DeviceHealth payload) even though the connectivity provider reports
link-down, with no preceding link-status check. -/
theorem heartbeat_sent_while_linkDown :
    downInput.wifiConnected = false
  ∧ (loopStep (runLoop initLoopState (List.replicate 9 downInput)) downInput).2.events
      = [.sensorQuery, .sensorQuery,
         .networkPost "/api/hardware/heartbeat" (heartbeatPayload downInput)] :=
  ⟨rfl, rfl⟩

/-- Claim C2 as amended: while the link is down no telemetry payload is
ever posted in any tick from any state, because sendTelemetryData checks
the link status immediately before the attempt; the heartbeat POST has no
such guard. -/
theorem linkDown_no_telemetry_post :
    ∀ (ls : LoopState) (inp : TickInput), inp.wifiConnected = false →
      ∀ (p : Json),
        Event.networkPost "/api/hardware/gps" p ∉ (loopStep ls inp).2.events := by
  intro ls inp h p
  rw [loopStep_events, h]
  simp

/-- Witness for linkDown_no_telemetry_post at the concrete link-down tick
input. -/
theorem linkDown_no_telemetry_post_witness :
    Event.networkPost "/api/hardware/gps" (telemetryPayload initSystemState "t")
      ∉ (loopStep initLoopState downInput).2.events :=
  linkDown_no_telemetry_post initLoopState downInput rfl _

/-- Claim C3: after any run of n ticks from the initial state the counter
equals n modulo 10 exactly (so it wraps at 10, stays in 0..9 and never
overflows), and the next tick, tick n + 1, attempts a heartbeat exactly
when n + 1 is a multiple of 10: ticks 10, 20, 30 and no others. -/
theorem tick_counter_period :
    ∀ (inps : List TickInput) (inp : TickInput),
      (runLoop initLoopState inps).updateCount = ((inps.length % 10 : ℕ) : ℤ)
    ∧ 0 ≤ (runLoop initLoopState inps).updateCount
    ∧ (runLoop initLoopState inps).updateCount < 10
    ∧ ((loopStep (runLoop initLoopState inps) inp).2.heartbeat.isSome = true
         ↔ (inps.length + 1) % 10 = 0) := by
  intro inps inp
  have h := runLoop_updateCount inps initLoopState (by norm_num [initLoopState])
    (by norm_num [initLoopState])
  rw [show initLoopState.updateCount = (0 : ℤ) from rfl] at h
  refine ⟨?_, ?_, ?_, ?_⟩
  · rw [h]; push_cast; omega
  · rw [h]; omega
  · rw [h]; omega
  · rw [loopStep_heartbeat_isSome, h]
    simp only [decide_eq_true_eq]
    omega

/-- Witness for tick_counter_period on a concrete run of ten ticks. -/
theorem tick_counter_period_witness :
    (runLoop initLoopState (List.replicate 10 downInput)).updateCount
      = (((List.replicate 10 downInput).length % 10 : ℕ) : ℤ) :=
  (tick_counter_period (List.replicate 10 downInput) downInput).1

/-- Counterexample to claim C4: status 200 is a success (2xx) status, yet
the telemetry classification rejects it, because the source tests
httpResponseCode == 201 exactly; symmetrically the heartbeat classification
rejects 201. -/
theorem classify_2xx_counterexample :
    (200 : ℤ) ≥ 200 ∧ (200 : ℤ) < 300
  ∧ classifyTelemetry ⟨200, .jobj .nil⟩ = .RejectedByServer 200 (.jobj .nil)
  ∧ (classifyTelemetry ⟨200, .jobj .nil⟩).isAccepted = false
  ∧ classifyHeartbeat ⟨201, .jobj .nil⟩ = .RejectedByServer 201 (.jobj .nil) := by
  decide

/-- Claim C4 as amended: a telemetry response is classified Accepted
exactly when its status is 201 (parsing the server confirmation message
from the body), a heartbeat response exactly when its status is 200, and
every other received status, other 2xx codes included, is classified
RejectedByServer with the code and the raw body. -/
theorem classify_exact_codes :
    ∀ (resp : HttpResponse),
      ((classifyTelemetry resp).isAccepted = true ↔ resp.code = 201)
    ∧ ((classifyHeartbeat resp).isAccepted = true ↔ resp.code = 200)
    ∧ (resp.code = 201 →
        classifyTelemetry resp = .Accepted (confirmationMessage resp.body))
    ∧ (resp.code ≠ 201 →
        classifyTelemetry resp = .RejectedByServer resp.code resp.body)
    ∧ (resp.code ≠ 200 →
        classifyHeartbeat resp = .RejectedByServer resp.code resp.body) := by
  intro resp
  refine ⟨?_, ?_, ?_, ?_, ?_⟩
  · unfold classifyTelemetry
    split <;> rename_i h <;> simp [TransmissionOutcome.isAccepted, h]
  · unfold classifyHeartbeat
    split <;> rename_i h <;> simp [TransmissionOutcome.isAccepted, h]
  · intro h; unfold classifyTelemetry; rw [if_pos h]
  · intro h; unfold classifyTelemetry; rw [if_neg h]
  · intro h; unfold classifyHeartbeat; rw [if_neg h]

/-- Witness for classify_exact_codes at status 201. -/
theorem classify_exact_codes_witness :
    (classifyTelemetry ⟨201, .jobj .nil⟩).isAccepted = true
  ∧ classifyHeartbeat ⟨201, .jobj .nil⟩ = .RejectedByServer 201 (.jobj .nil) :=
  ⟨(classify_exact_codes ⟨201, .jobj .nil⟩).1.mpr rfl,
   (classify_exact_codes ⟨201, .jobj .nil⟩).2.2.2.2 (by decide)⟩

/-- Claim C5: a telemetry send answered with HTTP 201 and the body whose
success field is true and whose message field is the string ok yields the
outcome Accepted with server message ok, extracted from the body. -/
theorem telemetry_201_accepted_ok :
    ∀ (st : SystemState) (ts : String),
      (sendTelemetryData true st ts
        ⟨201, .jobj (.cons "success" (.jbool true)
          (.cons "message" (.jstr "ok") .nil))⟩).1
      = .Accepted (some "ok") := by
  intro st ts
  rfl

/-- Counterexample to claim C6: when the transport never returns a response
the HTTP library returns a negative code (here -11, its read-timeout code);
the source classifies it through the same else branch as a server
rejection, RejectedByServer(-11, body), never a distinct TransportError. -/
theorem transport_failure_counterexample :
    (-11 : ℤ) < 0
  ∧ classifyTelemetry ⟨-11, .jobj .nil⟩ = .RejectedByServer (-11) (.jobj .nil)
  ∧ (classifyTelemetry ⟨-11, .jobj .nil⟩).isTransportError = false := by
  decide

/-- Claim C6 as amended: every transport-level failure, surfacing as a
negative result code, lands in the single failure branch and is classified
RejectedByServer with that negative code and the body; the code never
produces a distinct TransportError outcome. -/
theorem transport_failure_classification :
    ∀ (resp : HttpResponse), resp.code < 0 →
      classifyTelemetry resp = .RejectedByServer resp.code resp.body
    ∧ (classifyTelemetry resp).isTransportError = false := by
  intro resp h
  have hne : resp.code ≠ 201 := by omega
  constructor
  · unfold classifyTelemetry; rw [if_neg hne]
  · unfold classifyTelemetry; rw [if_neg hne]; rfl

/-- Witness for transport_failure_classification at code -11. -/
theorem transport_failure_classification_witness :
    classifyTelemetry ⟨-11, .jobj .nil⟩ = .RejectedByServer (-11) (.jobj .nil)
  ∧ (classifyTelemetry ⟨-11, .jobj .nil⟩).isTransportError = false :=
  transport_failure_classification ⟨-11, .jobj .nil⟩ (by decide)

/-- Claim C7: a telemetry send answered with HTTP 401 yields
RejectedByServer(401, body), and the loop continues: the successor state of
any tick is unchanged under any substitution of the two HTTP responses, so
no response, failing ones included, can abort or alter the progression of
the loop. -/
theorem rejected_401_loop_continues :
    (∀ (st : SystemState) (ts : String) (b : Json),
        (sendTelemetryData true st ts ⟨401, b⟩).1 = .RejectedByServer 401 b)
  ∧ (∀ (ls : LoopState) (inp : TickInput) (rt rh : HttpResponse),
        (loopStep ls (setResponses inp rt rh)).1 = (loopStep ls inp).1) := by
  constructor
  · intro st ts b; rfl
  · intro ls inp rt rh
    simp only [loopStep, setResponses]
    split <;> rfl

/-- Claim C8: from the initial level 100, after any number of ticks the
fuel level lies in the closed range 0 to 100, and one further tick never
increases it (monotonically non-increasing, clamped at 0). -/
theorem fuel_level_invariant :
    ∀ (inps : List TickInput) (inp : TickInput),
      0 ≤ (runLoop initLoopState inps).sys.fuelLevel
    ∧ (runLoop initLoopState inps).sys.fuelLevel ≤ 100
    ∧ (loopStep (runLoop initLoopState inps) inp).1.sys.fuelLevel
        ≤ (runLoop initLoopState inps).sys.fuelLevel := by
  intro inps inp
  obtain ⟨h0, h1⟩ := runLoop_fuel_bounds inps initLoopState
    (by norm_num [initLoopState, initSystemState])
    (by norm_num [initLoopState, initSystemState])
  refine ⟨h0, h1, ?_⟩
  rw [loopStep_sys]
  show max 0 ((runLoop initLoopState inps).sys.fuelLevel - 1 / 100) ≤ _
  apply max_le h0
  linarith

/-- Claim C9: serializing any TelemetrySample to the canonical payload and
parsing it back restores the sample field for field, no field omitted; and
the canonical serializer agrees with the payload the source builds from the
globals. -/
theorem telemetry_roundTrip :
    (∀ (s : TelemetrySample), parseTelemetrySample (serializeSample s) = some s)
  ∧ (∀ (st : SystemState) (ts : String),
      serializeSample (sampleOf st ts) = telemetryPayload st ts) := by
  constructor
  · intro s; rfl
  · intro st ts; rfl

/-- Claim C10: every telemetry payload a tick ever posts carries the
constant door_status object with front false and rear false, independent of
state and input, since the source assigns the door booleans literally. -/
theorem door_status_constant :
    ∀ (ls : LoopState) (inp : TickInput) (p : Json),
      Event.networkPost "/api/hardware/gps" p ∈ (loopStep ls inp).2.events →
      doorStatusOf p = some (.jobj (.cons "front" (.jbool false)
        (.cons "rear" (.jbool false) .nil))) := by
  intro ls inp p hmem
  rw [loopStep_events] at hmem
  simp only [List.mem_append, List.mem_cons, List.not_mem_nil] at hmem
  rcases hmem with ((h | h) | h) | h
  · exact absurd h (by simp)
  · exact absurd h (by simp)
  · split at h
    · simp only [List.mem_cons, List.not_mem_nil, or_false] at h
      injection h with h1 h2
      subst h2
      rfl
    · exact absurd h (List.not_mem_nil _)
  · split at h
    · simp only [List.mem_cons, List.not_mem_nil, or_false] at h
      exact absurd h (by simp)
    · exact absurd h (List.not_mem_nil _)

/-- Witness for door_status_constant on the payload the first link-up tick
actually posts. -/
theorem door_status_constant_witness :
    doorStatusOf (telemetryPayload
        (readSensorData (readGPSData initLoopState.sys upInput) upInput)
        upInput.timestamp)
      = some (.jobj (.cons "front" (.jbool false)
          (.cons "rear" (.jbool false) .nil))) := by
  apply door_status_constant initLoopState upInput
  have hev : (loopStep initLoopState upInput).2.events
      = [.sensorQuery, .sensorQuery,
         .networkPost "/api/hardware/gps"
           (telemetryPayload
             (readSensorData (readGPSData initLoopState.sys upInput) upInput)
             upInput.timestamp)] := rfl
  rw [hev]
  exact List.mem_cons_of_mem _ (List.mem_cons_of_mem _ (List.mem_cons_self _ _))

end BusTracking
